import Mathlib

set_option maxHeartbeats 1000000

/-!
Verification of the homework-status notification bot (`homework.py`).

The source is shallowly embedded: decoded JSON documents become the
inductive type `JValue`; Python exceptions become the `BotError` type;
the HTTP transport and the Telegram send call are modelled as explicit
per-iteration inputs (`HttpOutcome`, `SendOutcome`); one pass of the
`while True` body of `main` becomes the function `mainIterate` on
`LoopState`.  Logging is side-effect-free diagnostics and is omitted,
except that the error-log line of the exception handlers is recorded in
the iteration trace.
-/

/-- A decoded JSON document, the result of `response.json()`. -/
inductive JValue where
  | null
  | bool (b : Bool)
  | num (n : Int)
  | str (s : String)
  | arr (xs : List JValue)
  | obj (fs : List (String × JValue))

namespace JValue

/-- Python truthiness (`if x:`) of a decoded JSON value. -/
def truthy : JValue → Bool
  | .null => false
  | .bool b => b
  | .num n => n != 0
  | .str s => s != ""
  | .arr xs => !xs.isEmpty
  | .obj fs => !fs.isEmpty

def isObj : JValue → Bool
  | .obj _ => true
  | _ => false

def isArr : JValue → Bool
  | .arr _ => true
  | _ => false

/-- `d.get(k)` on a Python dict (None when absent / not a dict). -/
def get? (v : JValue) (k : String) : Option JValue :=
  match v with
  | .obj fs => fs.lookup k
  | _ => none

/-- `str(type(x))`, as interpolated by the f-strings in `check_response`. -/
def pytypeName : JValue → String
  | .null => "<class \x27NoneType\x27>"
  | .bool _ => "<class \x27bool\x27>"
  | .num _ => "<class \x27int\x27>"
  | .str _ => "<class \x27str\x27>"
  | .arr _ => "<class \x27list\x27>"
  | .obj _ => "<class \x27dict\x27>"

end JValue

/-- Python `repr` of a string: single-quoted, double-quoted when the
string itself holds a single quote and no double quote. -/
def pyStrRepr (s : String) : String :=
  if s.data.contains '\x27' && !(s.data.contains '"') then "\"" ++ s ++ "\""
  else "\x27" ++ s ++ "\x27"

/-- Python `repr` of a decoded JSON value. -/
def pyRepr : JValue → String
  | .null => "None"
  | .bool true => "True"
  | .bool false => "False"
  | .num n => toString n
  | .str s => pyStrRepr s
  | .arr xs => "[" ++ String.intercalate ", " (xs.attach.map (fun x => pyRepr x.1)) ++ "]"
  | .obj fs =>
      "\x7b" ++
        String.intercalate ", "
          (fs.attach.map (fun p => pyStrRepr p.1.1 ++ ": " ++ pyRepr p.1.2)) ++
      "\x7d"
termination_by v => sizeOf v
decreasing_by
  · have h := List.sizeOf_lt_of_mem x.2
    simp only [JValue.arr.sizeOf_spec]
    omega
  · rcases p with ⟨⟨k, v⟩, hmem⟩
    have h := List.sizeOf_lt_of_mem hmem
    simp only [JValue.obj.sizeOf_spec, Prod.mk.sizeOf_spec] at h ⊢
    omega

/-- Python `str`, as used by f-string interpolation. -/
def pyStr : JValue → String
  | .str s => s
  | v => pyRepr v

example : pyStr (.str "hw") = "hw" := by rfl
example : pyStr (.num 7) = "7" := by
  simp only [pyStr, pyRepr]
  decide

/-- The Python exceptions raised by `get_api_answer`, `check_response` and
`parse_status`, each carrying the argument string it was constructed with.
`jsonDecodeError` stands for `requests.exceptions.JSONDecodeError`, raised
by `.json()` on an unparseable body. -/
inductive BotError where
  | connectionError (msg : String)
  | valueError (msg : String)
  | typeError (msg : String)
  | keyError (msg : String)
  | jsonDecodeError (msg : String)
  deriving DecidableEq

namespace BotError

/-- Python `str(e)` of the exception, as interpolated by
`f'Сбой в работе программы: {error}'` in `main`: `KeyError.__str__`
returns the `repr` of its argument, the other classes return the
argument itself. -/
def pystr : BotError → String
  | .connectionError m => m
  | .valueError m => m
  | .typeError m => m
  | .keyError m => pyStrRepr m
  | .jsonDecodeError m => m

/-- `isinstance(e, ValueError)`: `requests.exceptions.JSONDecodeError`
derives from `json.JSONDecodeError`, itself a `ValueError` subclass. -/
def isValueErrorClass : BotError → Bool
  | .valueError _ => true
  | .jsonDecodeError _ => true
  | _ => false

end BotError

/-- The body of the HTTP response, as seen through `.json()`:
either a decoded value or a decode failure. -/
inductive HttpBody where
  | ok (v : JValue)
  | malformed (msg : String)

/-- The outcome of the one `requests.get` call of an iteration: a raised
`requests.RequestException`, or a response with a status code and body. -/
inductive HttpOutcome where
  | transportError (err : String)
  | response (status_code : Nat) (body : HttpBody)

/-- `get_api_answer` (homework.py lines 63-84): on a transport error,
re-raise as `ConnectionError`; on a non-200 status, raise `ValueError`
carrying the code; otherwise return `.json()`, whose own decode failure
(`JSONDecodeError`) propagates uncaught since it is raised outside the
`try`.  The timestamp is only sent as the `from_date` query parameter and
does not influence how the outcome is classified. -/
def get_api_answer (timestamp : JValue) (outcome : HttpOutcome) :
    Except BotError JValue :=
  match outcome with
  | .transportError err =>
      .error (.connectionError ("Эндпоинт API недоступен: " ++ err))
  | .response status_code body =>
      if status_code ≠ 200 then
        .error (.valueError ("Ошибка при запросе к API: " ++ toString status_code))
      else
        match body with
        | .ok v => .ok v
        | .malformed msg => .error (.jsonDecodeError msg)

/-- `check_response` (homework.py lines 87-100): `TypeError` when the
response is not a dict; then `homeworks = response.get('homeworks')` and
`if not homeworks:` raises the missing-key `KeyError` — note this fires
for every falsy value, an absent key and an empty list alike; then
`TypeError` (with the same not-a-dict text, interpolating
`type(response)`) when `homeworks` is not a list. -/
def check_response (response : JValue) : Except BotError Unit :=
  if !response.isObj then
    .error (.typeError ("Ответ не содержит словарь " ++ response.pytypeName))
  else
    let homeworks := (response.get? "homeworks").getD .null
    if !homeworks.truthy then
      .error (.keyError "В ответе отсутсвует ключ \"homeworks\"")
    else if !homeworks.isArr then
      .error (.typeError ("Ответ не содержит словарь " ++ response.pytypeName))
    else
      .ok ()

/-- The verdict table `HOMEWORK_VERDICTS` (homework.py lines 22-26). -/
def HOMEWORK_VERDICTS : List (String × String) :=
  [("approved", "Работа проверена: ревьюеру всё понравилось. Ура!"),
   ("reviewing", "Работа взята на проверку ревьюером."),
   ("rejected", "Работа проверена: у ревьюера есть замечания.")]

/-- `HOMEWORK_VERDICTS[key]`: a dict subscript.  A missing hashable key
raises `KeyError(key)` (whose `str` is the key's `repr`); an unhashable
key (list or dict) raises `TypeError`. -/
def verdictLookup : JValue → Except BotError String
  | .str s =>
      match HOMEWORK_VERDICTS.lookup s with
      | some v => .ok v
      | none => .error (.keyError (pyStrRepr s))
  | .arr _ => .error (.typeError "unhashable type: \x27list\x27")
  | .obj _ => .error (.typeError "unhashable type: \x27dict\x27")
  | v => .error (.keyError (pyRepr v))

/-- `object is not subscriptable` / indexing `TypeError` texts for
`homework['homework_name']` when `homework` is not a dict. -/
def subscriptErrMsg : JValue → String
  | .null => "\x27NoneType\x27 object is not subscriptable"
  | .bool _ => "\x27bool\x27 object is not subscriptable"
  | .num _ => "\x27int\x27 object is not subscriptable"
  | .str _ => "string indices must be integers"
  | .arr _ => "list indices must be integers or slices, not str"
  | .obj _ => ""

/-- `parse_status` (homework.py lines 103-128): re-raise a `KeyError` on
a missing `homework_name` with the message
`Ключ {error} отсутсвует в домашней работе` (where `{error}` is the
`str` of the caught `KeyError`, i.e. the quoted key); raise `KeyError`
when `homework.get('status')` is falsy (absent or empty); look the
status up in `HOMEWORK_VERDICTS`, turning that subscript's `KeyError`
into a `ValueError` `{error}. Неизвестный статус домашней работы`;
otherwise return the formatted notification text.  On a non-dict record
the first subscript's `TypeError` propagates, since only `KeyError` is
caught. -/
def parse_status (homework : JValue) : Except BotError String :=
  match homework with
  | .obj fs =>
      match fs.lookup "homework_name" with
      | none =>
          .error (.keyError "Ключ \x27homework_name\x27 отсутсвует в домашней работе")
      | some nameV =>
          let statusV := (fs.lookup "status").getD .null
          if !statusV.truthy then
            .error (.keyError "Ключ \"status\" отсутсвует в домашней работе")
          else
            match verdictLookup statusV with
            | .ok verdict =>
                .ok ("Изменился статус проверки работы \"" ++ pyStr nameV
                      ++ "\". " ++ verdict)
            | .error (.keyError r) =>
                .error (.valueError (r ++ ". Неизвестный статус домашней работы"))
            | .error e => .error e
  | v => .error (.typeError (subscriptErrMsg v))

example :
    parse_status (.obj [("homework_name", .str "hw1"), ("status", .str "approved")])
      = .ok "Изменился статус проверки работы \"hw1\". Работа проверена: ревьюеру всё понравилось. Ура!" := by
  rfl

example :
    check_response (.obj [("homeworks", .arr [])])
      = .error (.keyError "В ответе отсутсвует ключ \"homeworks\"") := by
  rfl

/-- `RETRY_PERIOD` (homework.py line 18). -/
def RETRY_PERIOD : Nat := 600

/-- The outcome of one `send_message` call (`bot.send_message` either
returns, raises `apihelper.ApiTelegramException`, or raises some other
exception). -/
inductive SendOutcome where
  | success
  | telegramError (e : String)
  | otherError (e : String)
  deriving DecidableEq

/-- The mutable state of `main`'s loop: the poll cursor `timestamp`
(`int(time.time())` at startup, possibly replaced by whatever JSON value
`current_date` holds) and the dedup string `last_message`. -/
structure LoopState where
  timestamp : JValue
  last_message : String

/-- `timestamp = int(time.time()); last_message = ''` before the loop. -/
def initialState (t0 : Int) : LoopState := ⟨.num t0, ""⟩

/-- The environment of one iteration: the HTTP outcome of its single
`requests.get`, and the outcomes of the first and second `send_message`
calls the iteration makes (at most two can occur: the normal-flow send
and the error-handler send). -/
structure IterEnv where
  fetch : HttpOutcome
  send1 : SendOutcome
  send2 : SendOutcome

/-- Observable events of one iteration: every `send_message` call made,
with its text and outcome, in order; the text passed to `logger.error`
by an exception handler, if any; and the `time.sleep` duration of the
`finally` block. -/
structure IterTrace where
  sendAttempts : List (String × SendOutcome)
  errorLogged : Option String
  slept : Nat

/-- The exception-free prefix of the loop body (`main`, lines 142-146):
fetch, validate, re-read `homeworks`, and — when it is non-empty —
format the first record.  Returns the decoded response together with the
candidate notification text (none when `homeworks` is falsy, which
`check_response` in fact rules out).  The wildcard row models
`homeworks[0]` on a truthy non-list, unreachable after `check_response`
succeeds. -/
def pipeline (ts : JValue) (fetch : HttpOutcome) :
    Except BotError (JValue × Option String) :=
  match get_api_answer ts fetch with
  | .error e => .error e
  | .ok resp =>
      match check_response resp with
      | .error e => .error e
      | .ok _ =>
          let homeworks := (resp.get? "homeworks").getD .null
          if homeworks.truthy then
            match homeworks with
            | .arr (h :: _) =>
                match parse_status h with
                | .ok m => .ok (resp, some m)
                | .error e => .error e
            | v => .error (.typeError (subscriptErrMsg v))
          else
            .ok (resp, none)

/-- The `except Exception` handler of `main` (lines 158-166): build
`Сбой в работе программы: {error}`, and when it differs from
`last_message`, call `send_message` inside `suppress(Exception)` —
`last_message` is updated only when that call returns; the message is
then logged unconditionally.  `att` holds the sends already made this
iteration, selecting which of the environment's send outcomes this call
receives. -/
def exceptionFlow (s : LoopState) (env : IterEnv) (message : String)
    (att : List (String × SendOutcome)) : LoopState × IterTrace :=
  if message ≠ s.last_message then
    let out := if att.isEmpty then env.send1 else env.send2
    ((if out = .success then { s with last_message := message } else s),
     ⟨att ++ [(message, out)], some message, RETRY_PERIOD⟩)
  else
    (s, ⟨att, some message, RETRY_PERIOD⟩)

/-- One pass of `while True:` in `main` (homework.py lines 140-169).
After a successful pipeline with a candidate text differing from
`last_message`, `send_message` runs; on success `last_message` is
updated and the cursor advances to `current_date` (falling back to the
old cursor); a raised `ApiTelegramException` is only logged by the first
handler; any other send failure falls to the generic handler, which
wraps its `str` in the program-failure text.  A pipeline failure goes to
the generic handler directly (none of its exception classes is an
`ApiTelegramException`).  The `finally` sleep always runs. -/
def mainIterate (s : LoopState) (env : IterEnv) : LoopState × IterTrace :=
  match pipeline s.timestamp env.fetch with
  | .ok (resp, some m) =>
      if m ≠ s.last_message then
        match env.send1 with
        | .success =>
            ({ timestamp := (resp.get? "current_date").getD s.timestamp,
               last_message := m },
             ⟨[(m, .success)], none, RETRY_PERIOD⟩)
        | .telegramError e =>
            (s, ⟨[(m, .telegramError e)],
                 some ("Ошибка Telegram: " ++ e), RETRY_PERIOD⟩)
        | .otherError e =>
            exceptionFlow s env ("Сбой в работе программы: " ++ e)
              [(m, .otherError e)]
      else
        ({ s with timestamp := (resp.get? "current_date").getD s.timestamp },
         ⟨[], none, RETRY_PERIOD⟩)
  | .ok (resp, none) =>
      ({ s with timestamp := (resp.get? "current_date").getD s.timestamp },
       ⟨[], none, RETRY_PERIOD⟩)
  | .error e =>
      exceptionFlow s env ("Сбой в работе программы: " ++ e.pystr) []

/-- Sanity: a full successful iteration on a fresh state. -/
example :
    mainIterate (initialState 0)
      ⟨.response 200 (.ok (.obj
          [("homeworks", .arr [.obj [("homework_name", .str "hw1"),
                                     ("status", .str "approved")]]),
           ("current_date", .num 1000)])), .success, .success⟩
      = (⟨.num 1000,
          "Изменился статус проверки работы \"hw1\". Работа проверена: ревьюеру всё понравилось. Ура!"⟩,
         ⟨[("Изменился статус проверки работы \"hw1\". Работа проверена: ревьюеру всё понравилось. Ура!",
            .success)], none, RETRY_PERIOD⟩) := by
  rfl

/-- C7: `get_api_answer` classifies its outcome: a transport error
becomes a `ConnectionError` wrapping the cause, a non-200 status becomes
a `ValueError` carrying the code, a malformed body on a 200 surfaces as
a `JSONDecodeError` — a `ValueError` subclass, i.e. `UpstreamStatus`-
equivalent — and a 200 with a parseable body returns the decoded value. -/
theorem C7_get_api_answer_classification :
    ∀ (ts : JValue) (errS : String) (code : Nat) (body : HttpBody)
      (v : JValue) (msg : String),
    (get_api_answer ts (.transportError errS)
        = .error (.connectionError ("Эндпоинт API недоступен: " ++ errS)))
    ∧ (code ≠ 200 → get_api_answer ts (.response code body)
        = .error (.valueError ("Ошибка при запросе к API: " ++ toString code)))
    ∧ (get_api_answer ts (.response 200 (.malformed msg))
          = .error (.jsonDecodeError msg)
        ∧ (BotError.jsonDecodeError msg).isValueErrorClass = true)
    ∧ (get_api_answer ts (.response 200 (.ok v)) = .ok v) := by
  intro ts errS code body v msg
  refine ⟨rfl, ?_, ⟨rfl, rfl⟩, rfl⟩
  intro h
  simp [get_api_answer, h]

/-- Witness for C7 at a concrete non-200 input. -/
theorem C7_witness :
    get_api_answer (.num 0) (.response 404 (.ok .null))
      = .error (.valueError ("Ошибка при запросе к API: " ++ toString 404)) :=
  (C7_get_api_answer_classification (.num 0) "x" 404 (.ok .null) .null "m").2.1
    (by decide)

/-- C3: for every record holding a `homework_name` and a `status` that
is a key of `HOMEWORK_VERDICTS`, `parse_status` returns exactly
`Изменился статус проверки работы "{name}". {verdict}` with the verdict
drawn verbatim from the table. -/
theorem C3_parse_status_template :
    ∀ (fs : List (String × JValue)) (nameV : JValue) (status verdict : String),
    fs.lookup "homework_name" = some nameV →
    fs.lookup "status" = some (.str status) →
    HOMEWORK_VERDICTS.lookup status = some verdict →
    parse_status (.obj fs)
      = .ok ("Изменился статус проверки работы \"" ++ pyStr nameV
              ++ "\". " ++ verdict) := by
  intro fs nameV status verdict hn hs hv
  have hne : status ≠ "" := by
    intro h
    subst h
    simp [HOMEWORK_VERDICTS, List.lookup] at hv
  simp only [parse_status, hn, hs]
  simp [JValue.truthy, hne, verdictLookup, hv]

/-- Witness for C3 at a concrete approved record. -/
theorem C3_witness :
    parse_status (.obj [("homework_name", .str "hw1"), ("status", .str "approved")])
      = .ok ("Изменился статус проверки работы \"" ++ pyStr (.str "hw1")
              ++ "\". " ++ "Работа проверена: ревьюеру всё понравилось. Ура!") :=
  C3_parse_status_template _ (.str "hw1") "approved"
    "Работа проверена: ревьюеру всё понравилось. Ура!" rfl rfl rfl

/-- C6: over records whose `status` field, when present, is a string,
`parse_status` succeeds exactly when `homework_name` is present, `status`
is present and non-empty, and `status` is a key of `HOMEWORK_VERDICTS`;
the three failures are the distinct errors the source raises: the
missing-`homework_name` `KeyError`, the missing/empty-`status`
`KeyError`, and the unknown-status `ValueError` carrying the status
value. -/
theorem C6_parse_status_taxonomy :
    ∀ (fs : List (String × JValue)),
    (fs.lookup "status" = none ∨ ∃ st : String, fs.lookup "status" = some (.str st)) →
    ((∃ m, parse_status (.obj fs) = .ok m)
        ↔ ((fs.lookup "homework_name").isSome
            ∧ ∃ st, fs.lookup "status" = some (.str st) ∧ st ≠ ""
                ∧ (HOMEWORK_VERDICTS.lookup st).isSome))
    ∧ (fs.lookup "homework_name" = none →
        parse_status (.obj fs)
          = .error (.keyError "Ключ \x27homework_name\x27 отсутсвует в домашней работе"))
    ∧ ((fs.lookup "homework_name").isSome →
        (fs.lookup "status" = none ∨ fs.lookup "status" = some (.str "")) →
        parse_status (.obj fs)
          = .error (.keyError "Ключ \"status\" отсутсвует в домашней работе"))
    ∧ (∀ st, (fs.lookup "homework_name").isSome →
        fs.lookup "status" = some (.str st) → st ≠ "" →
        HOMEWORK_VERDICTS.lookup st = none →
        parse_status (.obj fs)
          = .error (.valueError (pyStrRepr st ++ ". Неизвестный статус домашней работы"))) := by
  intro fs hshape
  rcases hname : fs.lookup "homework_name" with _ | nameV
  · -- homework_name absent: the first subscript's KeyError is re-raised
    have hp : parse_status (.obj fs)
        = .error (.keyError "Ключ \x27homework_name\x27 отсутсвует в домашней работе") := by
      simp only [parse_status, hname]
    refine ⟨⟨?_, ?_⟩, fun _ => hp, ?_, ?_⟩
    · rintro ⟨m, hm⟩
      rw [hp] at hm
      cases hm
    · rintro ⟨hns, -⟩
      simp at hns
    · intro hns _
      simp at hns
    · intro st hns _ _ _
      simp at hns
  · rcases hshape with hs | ⟨st, hs⟩
    · -- status key absent: homework.get('status') is None, falsy
      have hp : parse_status (.obj fs)
          = .error (.keyError "Ключ \"status\" отсутсвует в домашней работе") := by
        simp only [parse_status, hname, hs]
        simp [JValue.truthy]
      refine ⟨⟨?_, ?_⟩, ?_, fun _ _ => hp, ?_⟩
      · rintro ⟨m, hm⟩
        rw [hp] at hm
        cases hm
      · rintro ⟨-, st, hst, -, -⟩
        rw [hs] at hst
        cases hst
      · intro h
        cases h
      · intro st' _ hst'
        rw [hs] at hst'
        cases hst'
    · by_cases hempty : st = ""
      · -- status present but empty: still falsy, same KeyError
        subst hempty
        have hp : parse_status (.obj fs)
            = .error (.keyError "Ключ \"status\" отсутсвует в домашней работе") := by
          simp only [parse_status, hname, hs]
          simp [JValue.truthy]
        refine ⟨⟨?_, ?_⟩, ?_, fun _ _ => hp, ?_⟩
        · rintro ⟨m, hm⟩
          rw [hp] at hm
          cases hm
        · rintro ⟨-, st', hst', hne', -⟩
          rw [hs] at hst'
          simp only [Option.some.injEq, JValue.str.injEq] at hst'
          exact absurd hst'.symm hne'
        · intro h
          cases h
        · intro st' _ hst' hne' _
          rw [hs] at hst'
          simp only [Option.some.injEq, JValue.str.injEq] at hst'
          exact absurd hst'.symm hne'
      · rcases hv : HOMEWORK_VERDICTS.lookup st with _ | verdict
        · -- unknown status: the verdict subscript's KeyError becomes a ValueError
          have hp : parse_status (.obj fs)
              = .error (.valueError (pyStrRepr st ++ ". Неизвестный статус домашней работы")) := by
            simp only [parse_status, hname, hs]
            simp [JValue.truthy, hempty, verdictLookup, hv]
          refine ⟨⟨?_, ?_⟩, ?_, ?_, ?_⟩
          · rintro ⟨m, hm⟩
            rw [hp] at hm
            cases hm
          · rintro ⟨-, st', hst', -, hsome'⟩
            rw [hs] at hst'
            simp only [Option.some.injEq, JValue.str.injEq] at hst'
            rw [← hst', hv] at hsome'
            cases hsome'
          · intro h
            cases h
          · intro _ hcase
            rcases hcase with h | h <;> rw [hs] at h
            · cases h
            · simp only [Option.some.injEq, JValue.str.injEq] at h
              exact absurd h hempty
          · intro st' _ hst' _ _
            rw [hs] at hst'
            simp only [Option.some.injEq, JValue.str.injEq] at hst'
            subst hst'
            exact hp
        · -- known status: success with the formatted text
          have hp : parse_status (.obj fs)
              = .ok ("Изменился статус проверки работы \"" ++ pyStr nameV
                      ++ "\". " ++ verdict) := by
            simp only [parse_status, hname, hs]
            simp [JValue.truthy, hempty, verdictLookup, hv]
          refine ⟨⟨?_, ?_⟩, ?_, ?_, ?_⟩
          · intro _
            exact ⟨rfl, st, hs, hempty, by rw [hv]; rfl⟩
          · intro _
            exact ⟨_, hp⟩
          · intro h
            cases h
          · intro _ hcase
            rcases hcase with h | h <;> rw [hs] at h
            · cases h
            · simp only [Option.some.injEq, JValue.str.injEq] at h
              exact absurd h hempty
          · intro st' _ hst' _ hv'
            rw [hs] at hst'
            simp only [Option.some.injEq, JValue.str.injEq] at hst'
            subst hst'
            rw [hv] at hv'
            cases hv'

/-- Witness for C6 at a record with the unknown status `in_review`. -/
theorem C6_witness :
    parse_status (.obj [("homework_name", .str "hw1"), ("status", .str "in_review")])
      = .error (.valueError (pyStrRepr "in_review" ++ ". Неизвестный статус домашней работы")) :=
  (C6_parse_status_taxonomy
      [("homework_name", .str "hw1"), ("status", .str "in_review")]
      (Or.inr ⟨"in_review", rfl⟩)).2.2.2 "in_review"
    rfl rfl (by decide) rfl

/-- C10: `check_response` checks only the top-level shape — any mapping
whose `homeworks` value is a non-empty list passes, whatever the
elements are — and an element-level defect surfaces only afterwards,
through `parse_status` applied to the first element in the loop's
pipeline. -/
theorem C10_check_response_shape_only :
    ∀ (fs : List (String × JValue)) (h : JValue) (t : List JValue),
    fs.lookup "homeworks" = some (.arr (h :: t)) →
    check_response (.obj fs) = .ok ()
    ∧ (∀ ts e, parse_status h = .error e →
        pipeline ts (.response 200 (.ok (.obj fs))) = .error e)
    ∧ (∀ ts m, parse_status h = .ok m →
        pipeline ts (.response 200 (.ok (.obj fs))) = .ok (.obj fs, some m)) := by
  intro fs h t hw
  have hcr : check_response (.obj fs) = .ok () := by
    simp [check_response, JValue.isObj, JValue.get?, hw, JValue.truthy, JValue.isArr]
  refine ⟨hcr, ?_, ?_⟩
  · intro ts e hpe
    simp [pipeline, get_api_answer, hcr, JValue.get?, hw, JValue.truthy, hpe]
  · intro ts m hpm
    simp [pipeline, get_api_answer, hcr, JValue.get?, hw, JValue.truthy, hpm]

/-- Witness for C10: a non-mapping element (`null`) passes validation;
the defect is then reported by `parse_status` on the first element. -/
theorem C10_witness :
    check_response (.obj [("homeworks", .arr [.null])]) = .ok ()
    ∧ pipeline (.num 0) (.response 200 (.ok (.obj [("homeworks", .arr [.null])])))
        = .error (.typeError "\x27NoneType\x27 object is not subscriptable") :=
  ⟨(C10_check_response_shape_only [("homeworks", .arr [.null])] .null [] rfl).1,
   (C10_check_response_shape_only [("homeworks", .arr [.null])] .null [] rfl).2.1
     (.num 0) _ rfl⟩

/-- C8, counterexample: for the mapping `{"homeworks": 0}` — a non-list
value — `check_response` raises the missing-key `KeyError`, not the
is-not-a-list `TypeError`, because `if not homeworks:` fires on every
falsy value. -/
theorem C8_counterexample :
    check_response (.obj [("homeworks", .num 0)])
        = .error (.keyError "В ответе отсутсвует ключ \"homeworks\"")
    ∧ check_response (.obj [("homeworks", .num 0)])
        ≠ .error (.typeError ("Ответ не содержит словарь "
            ++ JValue.pytypeName (.obj [("homeworks", .num 0)]))) := by
  refine ⟨rfl, ?_⟩
  intro hc
  simp [check_response, JValue.isObj, JValue.get?, JValue.truthy] at hc

/-- C8, amended: only a truthy non-list `homeworks` value reaches the
`isinstance(homeworks, list)` check and raises its `TypeError` (whose
text, due to a copy-paste, repeats the not-a-mapping wording with the
type of the whole response); that failure kind is distinct from the
missing-key `KeyError`, which falsy non-list values trigger instead. -/
theorem C8_amended_truthy_nonlist :
    ∀ (fs : List (String × JValue)) (v : JValue),
    fs.lookup "homeworks" = some v →
    v.truthy = true →
    v.isArr = false →
    check_response (.obj fs)
      = .error (.typeError ("Ответ не содержит словарь "
          ++ JValue.pytypeName (.obj fs)))
    ∧ (∀ m k, BotError.typeError m ≠ BotError.keyError k) := by
  intro fs v hv ht ha
  constructor
  · simp [check_response, JValue.isObj, JValue.get?, hv, ht, ha]
  · intro m k hc
    cases hc

/-- Witness for C8 (amended) at `{"homeworks": 5}`. -/
theorem C8_witness :
    check_response (.obj [("homeworks", .num 5)])
      = .error (.typeError ("Ответ не содержит словарь "
          ++ JValue.pytypeName (.obj [("homeworks", .num 5)]))) :=
  (C8_amended_truthy_nonlist [("homeworks", .num 5)] (.num 5) rfl (by decide) rfl).1

/-- The payload `{"homeworks": []}` and a benign environment for C1. -/
def c1payload : JValue := .obj [("homeworks", .arr [])]

def c1env : IterEnv := ⟨.response 200 (.ok c1payload), .success, .success⟩

/-- C1: contrary to the spec, a payload whose `homeworks` is an empty
list does NOT pass `check_response` — `if not homeworks:` raises the
missing-key `KeyError` although the key is present — and the loop
driver treats the iteration as an error poll, not a no-op: it sends the
program-failure message (the `main` branch that would log the no-update
case is unreachable) and leaves the cursor untouched. -/
theorem C1_empty_homeworks_rejected :
    check_response c1payload
        = .error (.keyError "В ответе отсутсвует ключ \"homeworks\"")
    ∧ (mainIterate ⟨.num 77, ""⟩ c1env).2.sendAttempts
        = [("Сбой в работе программы: \x27В ответе отсутсвует ключ \"homeworks\"\x27",
            .success)]
    ∧ (mainIterate ⟨.num 77, ""⟩ c1env).1.timestamp = .num 77 := by
  refine ⟨rfl, by decide, rfl⟩

/-! Branch characterizations of `mainIterate`, shared by the loop
theorems below. -/

lemma mainIterate_of_pipeline_error (s : LoopState) (env : IterEnv) (e : BotError)
    (h : pipeline s.timestamp env.fetch = .error e) :
    mainIterate s env
      = exceptionFlow s env ("Сбой в работе программы: " ++ e.pystr) [] := by
  simp [mainIterate, h]

lemma mainIterate_of_pipeline_none (s : LoopState) (env : IterEnv) (resp : JValue)
    (h : pipeline s.timestamp env.fetch = .ok (resp, none)) :
    mainIterate s env
      = ({ s with timestamp := (resp.get? "current_date").getD s.timestamp },
         ⟨[], none, RETRY_PERIOD⟩) := by
  simp [mainIterate, h]

lemma mainIterate_of_pipeline_some_eq (s : LoopState) (env : IterEnv) (resp : JValue)
    (m : String) (h : pipeline s.timestamp env.fetch = .ok (resp, some m))
    (hm : m = s.last_message) :
    mainIterate s env
      = ({ s with timestamp := (resp.get? "current_date").getD s.timestamp },
         ⟨[], none, RETRY_PERIOD⟩) := by
  simp [mainIterate, h, hm]

lemma mainIterate_of_send_success (s : LoopState) (env : IterEnv) (resp : JValue)
    (m : String) (h : pipeline s.timestamp env.fetch = .ok (resp, some m))
    (hm : m ≠ s.last_message) (hs : env.send1 = .success) :
    mainIterate s env
      = (⟨(resp.get? "current_date").getD s.timestamp, m⟩,
         ⟨[(m, .success)], none, RETRY_PERIOD⟩) := by
  simp [mainIterate, h, hm, hs]

lemma mainIterate_of_send_telegram (s : LoopState) (env : IterEnv) (resp : JValue)
    (m : String) (e : String) (h : pipeline s.timestamp env.fetch = .ok (resp, some m))
    (hm : m ≠ s.last_message) (hs : env.send1 = .telegramError e) :
    mainIterate s env
      = (s, ⟨[(m, .telegramError e)],
             some ("Ошибка Telegram: " ++ e), RETRY_PERIOD⟩) := by
  simp [mainIterate, h, hm, hs]

lemma mainIterate_of_send_other (s : LoopState) (env : IterEnv) (resp : JValue)
    (m : String) (e : String) (h : pipeline s.timestamp env.fetch = .ok (resp, some m))
    (hm : m ≠ s.last_message) (hs : env.send1 = .otherError e) :
    mainIterate s env
      = exceptionFlow s env ("Сбой в работе программы: " ++ e)
          [(m, .otherError e)] := by
  simp [mainIterate, h, hm, hs]

lemma exceptionFlow_of_eq (s : LoopState) (env : IterEnv) (message : String)
    (att : List (String × SendOutcome)) (h : message = s.last_message) :
    exceptionFlow s env message att = (s, ⟨att, some message, RETRY_PERIOD⟩) := by
  simp [exceptionFlow, h]

lemma exceptionFlow_of_ne (s : LoopState) (env : IterEnv) (message : String)
    (att : List (String × SendOutcome)) (h : message ≠ s.last_message) :
    exceptionFlow s env message att
      = ((if (if att.isEmpty then env.send1 else env.send2) = .success
            then { s with last_message := message } else s),
         ⟨att ++ [(message, if att.isEmpty then env.send1 else env.send2)],
          some message, RETRY_PERIOD⟩) := by
  simp [exceptionFlow, h]

/-- C4: on any failure of fetch, validation or formatting (a `pipeline`
error), the driver logs `Сбой в работе программы: {error}`, attempts to
send that text exactly when it differs from `last_message` (recording
whatever outcome the send has — a secondary failure is suppressed and
the iteration still completes), leaves the cursor unchanged, and — for
every iteration whatsoever, failures of the notifier included — ends by
sleeping `RETRY_PERIOD` and resuming. -/
theorem C4_failure_recovery :
    (∀ (s : LoopState) (env : IterEnv) (e : BotError),
      pipeline s.timestamp env.fetch = .error e →
      (mainIterate s env).2.errorLogged
          = some ("Сбой в работе программы: " ++ e.pystr)
      ∧ (("Сбой в работе программы: " ++ e.pystr) ≠ s.last_message →
          (mainIterate s env).2.sendAttempts
            = [("Сбой в работе программы: " ++ e.pystr, env.send1)])
      ∧ (("Сбой в работе программы: " ++ e.pystr) = s.last_message →
          (mainIterate s env).2.sendAttempts = [])
      ∧ (mainIterate s env).1.timestamp = s.timestamp)
    ∧ (∀ (s : LoopState) (env : IterEnv),
        (mainIterate s env).2.slept = RETRY_PERIOD) := by
  constructor
  · intro s env e h
    rw [mainIterate_of_pipeline_error s env e h]
    by_cases hm : ("Сбой в работе программы: " ++ e.pystr) = s.last_message
    · rw [exceptionFlow_of_eq _ _ _ _ hm]
      exact ⟨rfl, fun hc => absurd hm hc, fun _ => rfl, rfl⟩
    · rw [exceptionFlow_of_ne _ _ _ _ hm]
      refine ⟨rfl, fun _ => by simp, fun hc => absurd hc hm, ?_⟩
      split <;> (try split) <;> rfl
  · intro s env
    rcases hpl : pipeline s.timestamp env.fetch with e | ⟨resp, m?⟩
    · rw [mainIterate_of_pipeline_error s env e hpl]
      by_cases hm : ("Сбой в работе программы: " ++ e.pystr) = s.last_message
      · rw [exceptionFlow_of_eq _ _ _ _ hm]
      · rw [exceptionFlow_of_ne _ _ _ _ hm]
    · rcases m? with _ | m
      · rw [mainIterate_of_pipeline_none s env resp hpl]
      · by_cases hm : m = s.last_message
        · rw [mainIterate_of_pipeline_some_eq s env resp m hpl hm]
        · rcases hsend : env.send1 with _ | e | e
          · rw [mainIterate_of_send_success s env resp m hpl hm hsend]
          · rw [mainIterate_of_send_telegram s env resp m e hpl hm hsend]
          · rw [mainIterate_of_send_other s env resp m e hpl hm hsend]
            by_cases hm2 : ("Сбой в работе программы: " ++ e) = s.last_message
            · rw [exceptionFlow_of_eq _ _ _ _ hm2]
            · rw [exceptionFlow_of_ne _ _ _ _ hm2]

/-- Environment for the C4 witness: the fetch raises a transport error
and the error-notification send itself fails. -/
def c4env : IterEnv := ⟨.transportError "oops", .telegramError "tg down", .success⟩

/-- Witness for C4 at a concrete transport failure. -/
theorem C4_witness :
    (mainIterate ⟨.num 0, ""⟩ c4env).2.errorLogged
        = some ("Сбой в работе программы: "
            ++ BotError.pystr (.connectionError "Эндпоинт API недоступен: oops"))
    ∧ (mainIterate ⟨.num 0, ""⟩ c4env).2.sendAttempts
        = [("Сбой в работе программы: "
              ++ BotError.pystr (.connectionError "Эндпоинт API недоступен: oops"),
            c4env.send1)]
    ∧ (mainIterate ⟨.num 0, ""⟩ c4env).2.slept = RETRY_PERIOD :=
  have h := C4_failure_recovery.1 ⟨.num 0, ""⟩ c4env
    (.connectionError "Эндпоинт API недоступен: oops") rfl
  ⟨h.1, h.2.1 (by decide), C4_failure_recovery.2 ⟨.num 0, ""⟩ c4env⟩

/-- C2: every `send_message` attempt of an iteration carries a text
differing from the `last_message` in force at the iteration's start; and
when a status send succeeds, a second iteration producing the identical
candidate text performs no send at all — two consecutive identical texts
yield exactly one send. -/
theorem C2_send_dedup :
    (∀ (s : LoopState) (env : IterEnv) (p : String × SendOutcome),
        p ∈ (mainIterate s env).2.sendAttempts → p.1 ≠ s.last_message)
    ∧ (∀ (s : LoopState) (env₁ env₂ : IterEnv) (r₁ r₂ : JValue) (m : String),
        pipeline s.timestamp env₁.fetch = .ok (r₁, some m) →
        m ≠ s.last_message →
        env₁.send1 = .success →
        pipeline (mainIterate s env₁).1.timestamp env₂.fetch = .ok (r₂, some m) →
        (mainIterate s env₁).2.sendAttempts = [(m, .success)]
        ∧ (mainIterate (mainIterate s env₁).1 env₂).2.sendAttempts = []
        ∧ (mainIterate (mainIterate s env₁).1 env₂).1.last_message = m) := by
  constructor
  · intro s env p hp
    rcases hpl : pipeline s.timestamp env.fetch with e | ⟨resp, m?⟩
    · rw [mainIterate_of_pipeline_error s env e hpl] at hp
      by_cases hm : ("Сбой в работе программы: " ++ e.pystr) = s.last_message
      · rw [exceptionFlow_of_eq _ _ _ _ hm] at hp
        simp at hp
      · rw [exceptionFlow_of_ne _ _ _ _ hm] at hp
        simp at hp
        subst hp
        exact hm
    · rcases m? with _ | m
      · rw [mainIterate_of_pipeline_none s env resp hpl] at hp
        simp at hp
      · by_cases hm : m = s.last_message
        · rw [mainIterate_of_pipeline_some_eq s env resp m hpl hm] at hp
          simp at hp
        · rcases hsend : env.send1 with _ | e | e
          · rw [mainIterate_of_send_success s env resp m hpl hm hsend] at hp
            simp at hp
            subst hp
            exact hm
          · rw [mainIterate_of_send_telegram s env resp m e hpl hm hsend] at hp
            simp at hp
            subst hp
            exact hm
          · rw [mainIterate_of_send_other s env resp m e hpl hm hsend] at hp
            by_cases hm2 : ("Сбой в работе программы: " ++ e) = s.last_message
            · rw [exceptionFlow_of_eq _ _ _ _ hm2] at hp
              simp at hp
              subst hp
              exact hm
            · rw [exceptionFlow_of_ne _ _ _ _ hm2] at hp
              simp at hp
              rcases hp with hp | hp <;> subst hp
              · exact hm
              · exact hm2
  · intro s env₁ env₂ r₁ r₂ m h1 hm hsend h2
    have e1 := mainIterate_of_send_success s env₁ r₁ m h1 hm hsend
    have hlast : (mainIterate s env₁).1.last_message = m := by rw [e1]
    have e2 := mainIterate_of_pipeline_some_eq (mainIterate s env₁).1 env₂ r₂ m h2
      hlast.symm
    exact ⟨by rw [e1], by rw [e2], by rw [e2]; exact hlast⟩

/-- A valid payload whose only record is approved, for the C2 witness. -/
def c2payload : JValue :=
  .obj [("homeworks", .arr [.obj [("homework_name", .str "hw1"),
                                  ("status", .str "approved")]]),
        ("current_date", .num 500)]

/-- The notification text `c2payload` formats to. -/
def c2msg : String :=
  "Изменился статус проверки работы \"hw1\". Работа проверена: ревьюеру всё понравилось. Ура!"

def c2env : IterEnv := ⟨.response 200 (.ok c2payload), .success, .success⟩

/-- Witness for C2: the same payload twice in a row yields one send. -/
theorem C2_witness :
    (mainIterate ⟨.num 0, ""⟩ c2env).2.sendAttempts = [(c2msg, .success)]
    ∧ (mainIterate (mainIterate ⟨.num 0, ""⟩ c2env).1 c2env).2.sendAttempts = []
    ∧ (mainIterate (mainIterate ⟨.num 0, ""⟩ c2env).1 c2env).1.last_message = c2msg :=
  C2_send_dedup.2 ⟨.num 0, ""⟩ c2env c2env c2payload c2payload c2msg rfl
    (by decide) rfl rfl

lemma exceptionFlow_last_message (s : LoopState) (env : IterEnv) (message : String)
    (att : List (String × SendOutcome)) :
    ((∀ p ∈ (exceptionFlow s env message att).2.sendAttempts,
        p.2 ≠ SendOutcome.success) →
      (exceptionFlow s env message att).1.last_message = s.last_message)
    ∧ ((exceptionFlow s env message att).1.last_message ≠ s.last_message →
        ((exceptionFlow s env message att).1.last_message, SendOutcome.success)
          ∈ (exceptionFlow s env message att).2.sendAttempts) := by
  by_cases hm : message = s.last_message
  · rw [exceptionFlow_of_eq _ _ _ _ hm]
    exact ⟨fun _ => rfl, fun hc => absurd rfl hc⟩
  · rw [exceptionFlow_of_ne _ _ _ _ hm]
    by_cases hs : (if att.isEmpty then env.send1 else env.send2) = SendOutcome.success
    · rw [if_pos hs]
      constructor
      · intro hall
        exact absurd hs (hall (message, if att.isEmpty then env.send1 else env.send2)
          (by simp))
      · intro _
        rw [hs]
        simp
    · rw [if_neg hs]
      exact ⟨fun _ => rfl, fun hc => absurd rfl hc⟩

/-- C9: `last_message` changes only through a send that returned
successfully: if no attempt of the iteration succeeded it is unchanged,
and whenever it changed, the new value was successfully delivered —
deduplication never suppresses a message that was never sent. -/
theorem C9_last_message_requires_delivery :
    ∀ (s : LoopState) (env : IterEnv),
    ((∀ p ∈ (mainIterate s env).2.sendAttempts, p.2 ≠ SendOutcome.success) →
        (mainIterate s env).1.last_message = s.last_message)
    ∧ ((mainIterate s env).1.last_message ≠ s.last_message →
        ((mainIterate s env).1.last_message, SendOutcome.success)
          ∈ (mainIterate s env).2.sendAttempts) := by
  intro s env
  rcases hpl : pipeline s.timestamp env.fetch with e | ⟨resp, m?⟩
  · rw [mainIterate_of_pipeline_error s env e hpl]
    exact exceptionFlow_last_message s env _ []
  · rcases m? with _ | m
    · rw [mainIterate_of_pipeline_none s env resp hpl]
      exact ⟨fun _ => rfl, fun hc => absurd rfl hc⟩
    · by_cases hm : m = s.last_message
      · rw [mainIterate_of_pipeline_some_eq s env resp m hpl hm]
        exact ⟨fun _ => rfl, fun hc => absurd rfl hc⟩
      · rcases hsend : env.send1 with _ | e | e
        · rw [mainIterate_of_send_success s env resp m hpl hm hsend]
          constructor
          · intro hall
            exact absurd rfl (hall (m, SendOutcome.success) (by simp))
          · intro _
            simp
        · rw [mainIterate_of_send_telegram s env resp m e hpl hm hsend]
          exact ⟨fun _ => rfl, fun hc => absurd rfl hc⟩
        · rw [mainIterate_of_send_other s env resp m e hpl hm hsend]
          exact exceptionFlow_last_message s env _ _

/-- A valid payload for the C9 witness. -/
def c9payload : JValue :=
  .obj [("homeworks", .arr [.obj [("homework_name", .str "hw1"),
                                  ("status", .str "rejected")]])]

/-- Environment for the C9 witness: both send calls of the iteration
fail, so nothing is ever delivered. -/
def c9env : IterEnv :=
  ⟨.response 200 (.ok c9payload), .otherError "boom", .telegramError "tg down"⟩

/-- Witness for C9: with every send failing, `last_message` keeps its
previous value. -/
theorem C9_witness :
    (mainIterate ⟨.num 0, ""⟩ c9env).1.last_message = "" :=
  (C9_last_message_requires_delivery ⟨.num 0, ""⟩ c9env).1 (by decide)

/-- A fully valid payload carrying `current_date` for the C5
counterexample. -/
def c5payload : JValue :=
  .obj [("homeworks", .arr [.obj [("homework_name", .str "hw1"),
                                  ("status", .str "approved")]]),
        ("current_date", .num 1000)]

/-- Environment for the C5 counterexample: the fetch succeeds but the
status send raises a Telegram error. -/
def c5env : IterEnv :=
  ⟨.response 200 (.ok c5payload), .telegramError "tg down", .success⟩

/-- C5, counterexample: the fetch succeeds and the response carries
`current_date = 1000`, yet because the send raises, control jumps to the
handler before line 153 runs and the cursor stays at 0 — the claim that
every successful fetch advances the cursor is false. -/
theorem C5_counterexample :
    get_api_answer (JValue.num 0) c5env.fetch = .ok c5payload
    ∧ c5payload.get? "current_date" = some (.num 1000)
    ∧ (mainIterate ⟨.num 0, ""⟩ c5env).1.timestamp = JValue.num 0
    ∧ (mainIterate ⟨.num 0, ""⟩ c5env).1.timestamp ≠ JValue.num 1000 := by
  refine ⟨rfl, rfl, rfl, ?_⟩
  intro hc
  rw [show (mainIterate ⟨.num 0, ""⟩ c5env).1.timestamp = JValue.num 0 from rfl] at hc
  injection hc with h
  exact absurd h (by decide)

/-- C5, amended: the cursor is advanced to the response's
`current_date` (falling back to the unchanged cursor when absent)
exactly in the iterations whose whole try-block runs to completion —
fetch, validation and formatting succeed and any attempted send
returns; when the send raises, or any earlier step fails, the
assignment on line 153 is skipped and the cursor is unchanged. -/
theorem C5_cursor_advance :
    ∀ (s : LoopState) (env : IterEnv),
    (∀ resp, pipeline s.timestamp env.fetch = .ok (resp, none) →
        (mainIterate s env).1.timestamp
          = (resp.get? "current_date").getD s.timestamp)
    ∧ (∀ resp m, pipeline s.timestamp env.fetch = .ok (resp, some m) →
        m = s.last_message →
        (mainIterate s env).1.timestamp
          = (resp.get? "current_date").getD s.timestamp)
    ∧ (∀ resp m, pipeline s.timestamp env.fetch = .ok (resp, some m) →
        m ≠ s.last_message → env.send1 = .success →
        (mainIterate s env).1.timestamp
          = (resp.get? "current_date").getD s.timestamp)
    ∧ (∀ resp m, pipeline s.timestamp env.fetch = .ok (resp, some m) →
        m ≠ s.last_message → env.send1 ≠ .success →
        (mainIterate s env).1.timestamp = s.timestamp)
    ∧ (∀ e, pipeline s.timestamp env.fetch = .error e →
        (mainIterate s env).1.timestamp = s.timestamp) := by
  intro s env
  refine ⟨?_, ?_, ?_, ?_, ?_⟩
  · intro resp h
    rw [mainIterate_of_pipeline_none s env resp h]
  · intro resp m h hm
    rw [mainIterate_of_pipeline_some_eq s env resp m h hm]
  · intro resp m h hm hs
    rw [mainIterate_of_send_success s env resp m h hm hs]
  · intro resp m h hm hs
    rcases hsend : env.send1 with _ | e | e
    · exact absurd hsend hs
    · rw [mainIterate_of_send_telegram s env resp m e h hm hsend]
    · rw [mainIterate_of_send_other s env resp m e h hm hsend]
      by_cases hm2 : ("Сбой в работе программы: " ++ e) = s.last_message
      · rw [exceptionFlow_of_eq _ _ _ _ hm2]
      · rw [exceptionFlow_of_ne _ _ _ _ hm2]
        split <;> (try split) <;> rfl
  · intro e h
    rw [mainIterate_of_pipeline_error s env e h]
    by_cases hm2 : ("Сбой в работе программы: " ++ e.pystr) = s.last_message
    · rw [exceptionFlow_of_eq _ _ _ _ hm2]
    · rw [exceptionFlow_of_ne _ _ _ _ hm2]
      split <;> (try split) <;> rfl

/-- Witness for C5 (amended): a completed iteration advances the cursor
to `current_date`. -/
theorem C5_witness :
    (mainIterate ⟨.num 0, ""⟩
        ⟨.response 200 (.ok c5payload), .success, .success⟩).1.timestamp
      = (c5payload.get? "current_date").getD (JValue.num 0) :=
  (C5_cursor_advance ⟨.num 0, ""⟩
      ⟨.response 200 (.ok c5payload), .success, .success⟩).2.2.1
    c5payload
    "Изменился статус проверки работы \"hw1\". Работа проверена: ревьюеру всё понравилось. Ура!"
    rfl (by decide) rfl
